import Mathlib

/-!
Verification of `internal/manifests/collector/parser/exporter/exporter.go`:
the exporter component-parser registry, the authz-parser registry, and the
endpoint/port extraction helpers.

Go maps `registry` / `authzRegistry` are embedded as the two fields of
`RegistryState`; map lookup/insert become function lookup/pointwise update.
The untyped values of a `map[interface{}]interface{}` config are embedded as
the tagged union `ConfigValue` (nil / string / any other type), since the
source's type switch distinguishes exactly those three cases.  The regex
`:[0-9]+` of `portFromEndpoint` is embedded as an explicit left-to-right
scan (`findColonDigits`) returning the leftmost colon-digit run, and
`strconv.ParseInt(_, 10, 32)` as `parseInt32`.  Loggers are dropped: they
are observability only and never influence control flow or return values.
-/

namespace Exporter

/-- Modelled from the spec: `parser.ComponentType` (declared in the
`parser` package, not part of the sources here) normalizes a component
type name by stripping any "/"-qualifier suffix, so that "otlp/2"
normalizes to "otlp". -/
def takeUntilSlash : List Char → List Char
  | [] => []
  | c :: cs => if c = '/' then [] else c :: takeUntilSlash cs

/-- Modelled from the spec: the normalization applied by lookups,
`ComponentType(name)` = the part of `name` before the first "/". -/
def componentType (name : String) : String :=
  String.mk (takeUntilSlash name.data)

/-- Modelled from the spec: `naming.PortName` (in the external `naming`
collaborator package) is a pure, deterministic function of the exporter
name and port; its internal algorithm is unspecified, so any concrete
deterministic function is a faithful model. -/
def PortName (name : String) (port : Int) : String :=
  name ++ "-" ++ toString port

/-- Values that can sit under a key of the decoded
`map[interface{}]interface{}` configuration, as distinguished by the type
switch in `singlePortFromConfigEndpoint`: a nil value, a string, or a
value of any other type. -/
inductive ConfigValue where
  | null
  | str (s : String)
  | other
deriving DecidableEq

/-- Embedding of `corev1.ServicePort`, restricted to the two fields the
source sets: `Name` and `Port`. -/
structure ServicePort where
  name : String
  port : Int
deriving DecidableEq

/-- The `endpointKey` package variable. -/
def endpointKey : String := "endpoint"

/-- Go map lookup `config[key]`, with the config embedded as an
association list; `none` means the key is absent. -/
def lookupConfig (config : List (String × ConfigValue)) (key : String) : Option ConfigValue :=
  (config.find? (fun kv => kv.1 = key)).map (fun kv => kv.2)

/-- Embedding of `getAddressFromConfig`: returns `config[key]`, or nil
(`none`) when the key is absent (the V(2) diagnostic log is dropped). -/
def getAddressFromConfig (key : String) (config : List (String × ConfigValue)) : Option ConfigValue :=
  lookupConfig config key

/-- True when the list starts with a decimal digit; the lookahead the
regex `:[0-9]+` needs after a colon. -/
def startsDigit : List Char → Bool
  | [] => false
  | c :: _ => c.isDigit

/-- The maximal leading run of decimal digits; the greedy `[0-9]+` part
of the regex match. -/
def takeDigits : List Char → List Char
  | [] => []
  | c :: cs => if c.isDigit then c :: takeDigits cs else []

/-- Embedding of `regexp.MustCompile(":[0-9]+").FindString`: a
left-to-right scan returning the digit run of the leftmost match (the
colon itself is stripped, as the source's `strings.Replace` does), or
`none` when the regex does not match. -/
def findColonDigits : List Char → Option (List Char)
  | [] => none
  | c :: cs =>
    if c = ':' ∧ startsDigit cs = true then some (takeDigits cs) else findColonDigits cs

/-- Numeric value of a run of decimal digits, base 10. -/
def digitsToNat (ds : List Char) : Nat :=
  ds.foldl (fun acc c => acc * 10 + (c.toNat - '0'.toNat)) 0

/-- Largest signed 32-bit integer, the bound `strconv.ParseInt(_, 10, 32)`
enforces. -/
def int32Max : Nat := 2147483647

/-- The error `strconv.ParseInt` returns on 32-bit overflow. -/
def rangeErr : String := "value out of range"

/-- The error built by `errors.New("port should not be empty")`. -/
def portEmptyErr : String := "port should not be empty"

/-- Embedding of `strconv.ParseInt(digits, 10, 32)` on a run of decimal
digits: the base-10 value if it fits in a signed 32-bit integer, an
out-of-range error otherwise. -/
def parseInt32 (ds : List Char) : Except String Int :=
  if digitsToNat ds ≤ int32Max then Except.ok (Int.ofNat (digitsToNat ds)) else Except.error rangeErr

/-- Embedding of `portFromEndpoint`: `port` starts at 0; when the regex
matches, the digit run is parsed (parse errors returned as-is); a final
port of 0 — no match, or a matched run of zeros — yields the
"port should not be empty" error. -/
def portFromEndpoint (endpoint : String) : Except String Int :=
  match findColonDigits endpoint.data with
  | none => Except.error portEmptyErr
  | some ds =>
    match parseInt32 ds with
    | Except.error e => Except.error e
    | Except.ok p => if p = 0 then Except.error portEmptyErr else Except.ok p

/-- Embedding of `singlePortFromConfigEndpoint`: type-switch on the
endpoint value; nil (absent key or nil value) and non-string values give
no port, a string endpoint gives a port exactly when `portFromEndpoint`
succeeds (error logs are dropped; the Go `*corev1.ServicePort` result,
nil or not, is an `Option`). -/
def singlePortFromConfigEndpoint (name : String) (config : List (String × ConfigValue)) : Option ServicePort :=
  match getAddressFromConfig endpointKey config with
  | none => none
  | some ConfigValue.null => none
  | some (ConfigValue.str e) =>
    match portFromEndpoint e with
    | Except.error _ => none
    | Except.ok port => some { name := PortName name port, port := port }
  | some ConfigValue.other => none

/-- Embedding of `parser.Builder` / `AuthzBuilder`: a function of the
component name and config producing a parser instance of type `P` (the
logger argument is dropped). -/
def Builder (P : Type) : Type :=
  String → List (String × ConfigValue) → P

/-- The two package-level registries, `registry` (port-parser builders
producing `P`) and `authzRegistry` (authz-parser builders producing `A`),
each a Go map embedded as a function to `Option`. -/
structure RegistryState (P A : Type) where
  registry : String → Option (Builder P)
  authzRegistry : String → Option (Builder A)

/-- Both registries as created by `make(map[...]...)`: empty. -/
def emptyState (P A : Type) : RegistryState P A :=
  { registry := fun _ => none, authzRegistry := fun _ => none }

/-- Embedding of `BuilderFor`: looks up the normalized name in
`registry`. -/
def BuilderFor {P A : Type} (s : RegistryState P A) (name : String) : Option (Builder P) :=
  s.registry (componentType name)

/-- Embedding of `For`: resolves a builder via `BuilderFor`; a miss is
the "no builders for <name>" error, otherwise the builder is invoked. -/
def For {P A : Type} (s : RegistryState P A) (name : String)
    (config : List (String × ConfigValue)) : Except String P :=
  match BuilderFor s name with
  | none => Except.error ("no builders for " ++ name)
  | some builder => Except.ok (builder name config)

/-- Embedding of `Register`: inserts/overwrites under the raw (not
normalized) name. -/
def Register {P A : Type} (s : RegistryState P A) (name : String) (builder : Builder P) :
    RegistryState P A :=
  { s with registry := fun k => if k = name then some builder else s.registry k }

/-- Embedding of `IsRegistered`: existence check on the raw (not
normalized) name. -/
def IsRegistered {P A : Type} (s : RegistryState P A) (name : String) : Bool :=
  (s.registry name).isSome

/-- Embedding of `AuthzBuilderFor`: looks up the normalized name in
`authzRegistry`. -/
def AuthzBuilderFor {P A : Type} (s : RegistryState P A) (name : String) : Option (Builder A) :=
  s.authzRegistry (componentType name)

/-- Embedding of `AuthzFor`: like `For`, over `authzRegistry`. -/
def AuthzFor {P A : Type} (s : RegistryState P A) (name : String)
    (config : List (String × ConfigValue)) : Except String A :=
  match AuthzBuilderFor s name with
  | none => Except.error ("no builders for " ++ name)
  | some builder => Except.ok (builder name config)

/-- Embedding of `AuthzRegister`: inserts/overwrites under the raw name
in `authzRegistry`. -/
def AuthzRegister {P A : Type} (s : RegistryState P A) (name : String) (builder : Builder A) :
    RegistryState P A :=
  { s with authzRegistry := fun k => if k = name then some builder else s.authzRegistry k }

/-- A list of characters contains an adjacent colon-digit pair; exactly
when the regex `:[0-9]+` has a match inside it. -/
def hasColonDigitPair : List Char → Bool
  | [] => false
  | [_] => false
  | c :: c2 :: rest => decide (c = ':' ∧ c2.isDigit = true) || hasColonDigitPair (c2 :: rest)

lemma findColonDigits_cons (c : Char) (cs : List Char) :
    findColonDigits (c :: cs) =
      if c = ':' ∧ startsDigit cs = true then some (takeDigits cs) else findColonDigits cs := rfl

lemma findColonDigits_first (d : Char) (rest : List Char) (hd : d.isDigit = true) :
    ∀ pre : List Char, hasColonDigitPair pre = false →
      findColonDigits (pre ++ ':' :: d :: rest) = some (takeDigits (d :: rest)) := by
  intro pre
  induction pre with
  | nil =>
    intro _
    rw [List.nil_append, findColonDigits_cons]
    simp [startsDigit, hd]
  | cons c pre' ih =>
    intro hpre
    cases pre' with
    | nil =>
      have h1 : ¬ (c = ':' ∧ startsDigit (([] : List Char) ++ ':' :: d :: rest) = true) := by
        simp [startsDigit]
      rw [List.cons_append, findColonDigits_cons, if_neg h1]
      exact ih rfl
    | cons c2 pre'' =>
      simp only [hasColonDigitPair, Bool.or_eq_false_iff, decide_eq_false_iff_not] at hpre
      have h1 : ¬ (c = ':' ∧ startsDigit ((c2 :: pre'') ++ ':' :: d :: rest) = true) := by
        simpa [List.cons_append, startsDigit] using hpre.1
      rw [List.cons_append, findColonDigits_cons, if_neg h1]
      exact ih hpre.2

lemma portFromEndpoint_ok_bounds (e : String) (p : Int)
    (h : portFromEndpoint e = Except.ok p) : 1 ≤ p ∧ p ≤ 2147483647 := by
  unfold portFromEndpoint at h
  cases hf : findColonDigits e.data with
  | none => rw [hf] at h; cases h
  | some ds =>
    rw [hf] at h
    by_cases hle : digitsToNat ds ≤ int32Max
    · simp only [parseInt32, if_pos hle] at h
      by_cases hz : (Int.ofNat (digitsToNat ds)) = 0
      · rw [if_pos hz] at h; cases h
      · rw [if_neg hz] at h
        simp only [Except.ok.injEq] at h
        subst h
        have hle' : digitsToNat ds ≤ 2147483647 := hle
        simp only [Int.ofNat_eq_natCast] at hz ⊢
        omega
    · simp only [parseInt32, if_neg hle] at h
      cases h

/-- C1 (counterexample): the round-trip fails for a "/"-qualified type
name. `Register` stores under the raw name while `BuilderFor` looks up
the normalized name, so after `Register("otlp/2", b)` on an empty
registry, `BuilderFor("otlp/2")` looks up "otlp" and returns none, not
`b`. -/
theorem C1_roundtrip_counterexample :
    BuilderFor (Register (emptyState Nat Nat) "otlp/2" (fun _ _ => 0)) "otlp/2" = none := rfl

/-- C1 (amended): for every type name `t` that is already in normalized
form (stripping the "/"-qualifier leaves it unchanged), after
`Register(t, b)` the lookup `BuilderFor(t)` returns exactly the
registered builder `b`, over any prior registry state. -/
theorem C1_roundtrip_normalized {P A : Type} (s : RegistryState P A) (t : String)
    (b : Builder P) (h : componentType t = t) :
    BuilderFor (Register s t b) t = some b := by
  unfold BuilderFor Register
  simp [h]

/-- C1 (witness): the amended round-trip at the concrete normalized name
"otlp". -/
theorem C1_roundtrip_normalized_witness :
    BuilderFor (Register (emptyState Nat Nat) "otlp" (fun _ _ => 7)) "otlp" =
      some (fun _ _ => 7) :=
  C1_roundtrip_normalized (emptyState Nat Nat) "otlp" (fun _ _ => 7) rfl

/-- C2: `singlePortFromConfigEndpoint` never surfaces an error (its
result type carries no error channel, mirroring the single
`*corev1.ServicePort` return): whenever the "endpoint" key is absent,
holds a nil value, holds a value of a non-string type, or holds a string
whose port fails to parse, the result is none, so no endpoint
malformation aborts configuration processing. -/
theorem C2_graceful_none (name : String) (config : List (String × ConfigValue)) :
    (lookupConfig config endpointKey = none ∨
     lookupConfig config endpointKey = some ConfigValue.null ∨
     lookupConfig config endpointKey = some ConfigValue.other ∨
     (∃ e err, lookupConfig config endpointKey = some (ConfigValue.str e) ∧
       portFromEndpoint e = Except.error err)) →
    singlePortFromConfigEndpoint name config = none := by
  intro h
  rcases h with h | h | h | ⟨e, err, he, hp⟩ <;>
    simp [singlePortFromConfigEndpoint, getAddressFromConfig, *]

/-- C2 (witness): the three malformation shapes at concrete configs: a
missing "endpoint" key, a non-string "endpoint" value, and a string
endpoint with no parsable port. -/
theorem C2_graceful_none_witness :
    singlePortFromConfigEndpoint "otlp" [] = none ∧
    singlePortFromConfigEndpoint "otlp" [(endpointKey, ConfigValue.other)] = none ∧
    singlePortFromConfigEndpoint "otlp" [(endpointKey, ConfigValue.str "localhost")] = none :=
  ⟨C2_graceful_none "otlp" [] (Or.inl rfl),
   C2_graceful_none "otlp" [(endpointKey, ConfigValue.other)] (Or.inr (Or.inr (Or.inl rfl))),
   C2_graceful_none "otlp" [(endpointKey, ConfigValue.str "localhost")]
     (Or.inr (Or.inr (Or.inr ⟨"localhost", portEmptyErr, rfl, rfl⟩)))⟩

/-- C3: when the endpoint decomposes as `pre ++ ":" ++ digits ++ ...`
with no colon-digit pair anywhere in `pre`, the scan extracts exactly
the digit run of that first (leftmost) match, and when its base-10 value
is positive and fits in a signed 32-bit integer, `portFromEndpoint`
returns that value. -/
theorem C3_first_colon_digit_run (endpoint : String) (pre rest : List Char) (d : Char)
    (hsplit : endpoint.data = pre ++ ':' :: d :: rest)
    (hd : d.isDigit = true)
    (hpre : hasColonDigitPair pre = false)
    (hpos : 0 < digitsToNat (takeDigits (d :: rest)))
    (hle : digitsToNat (takeDigits (d :: rest )) ≤ int32Max) :
    portFromEndpoint endpoint = Except.ok (Int.ofNat (digitsToNat (takeDigits (d :: rest)))) := by
  have hfind : findColonDigits endpoint.data = some (takeDigits (d :: rest)) := by
    rw [hsplit]
    exact findColonDigits_first d rest hd pre hpre
  unfold portFromEndpoint
  rw [hfind]
  simp only [parseInt32, if_pos hle]
  have hz : ¬ (Int.ofNat (digitsToNat (takeDigits (d :: rest))) = 0) := by
    simp only [Int.ofNat_eq_natCast]
    omega
  rw [if_neg hz]

/-- C3 (witness): `portFromEndpoint "localhost:4317"` extracts the run
after the single colon and returns 4317 with no error. -/
theorem C3_first_colon_digit_run_witness :
    portFromEndpoint "localhost:4317" = Except.ok 4317 := by
  have h := C3_first_colon_digit_run "localhost:4317"
    ['l', 'o', 'c', 'a', 'l', 'h', 'o', 's', 't'] ['3', '1', '7'] '4'
    rfl rfl rfl (by decide) (by decide)
  exact h.trans rfl

/-- C4 (counterexample): a returned descriptor can carry a port above
65535: on exporter "otlp" with endpoint "0.0.0.0:99999", the returned
descriptor has port 99999. -/
theorem C4_port_range_counterexample :
    (singlePortFromConfigEndpoint "otlp" [(endpointKey, ConfigValue.str "0.0.0.0:99999")]).map
        (fun sp => sp.port) = some 99999 ∧
      ¬ ((99999 : Int) ≤ 65535) := by
  constructor
  · rfl
  · decide

/-- C4 (amended): every descriptor returned by
`singlePortFromConfigEndpoint` has its port in [1, 2147483647]: the code
rejects zero and enforces the signed 32-bit bound of the parse, but
never checks the 65535 upper bound of real TCP ports. -/
theorem C4_port_range (name : String) (config : List (String × ConfigValue))
    (sp : ServicePort) (h : singlePortFromConfigEndpoint name config = some sp) :
    1 ≤ sp.port ∧ sp.port ≤ 2147483647 := by
  unfold singlePortFromConfigEndpoint getAddressFromConfig at h
  cases hl : lookupConfig config endpointKey with
  | none => rw [hl] at h; cases h
  | some v =>
    cases v with
    | null => rw [hl] at h; cases h
    | other => rw [hl] at h; cases h
    | str e =>
      rw [hl] at h
      cases hp : portFromEndpoint e with
      | error err => simp only [hp] at h; cases h
      | ok p =>
        simp only [hp, Option.some.injEq] at h
        subst h
        exact portFromEndpoint_ok_bounds e p hp

/-- C4 (witness): the amended bounds at the concrete descriptor produced
for exporter "otlp" with endpoint "0.0.0.0:4317". -/
theorem C4_port_range_witness :
    1 ≤ (ServicePort.mk (PortName "otlp" 4317) 4317).port ∧
      (ServicePort.mk (PortName "otlp" 4317) 4317).port ≤ 2147483647 :=
  C4_port_range "otlp" [(endpointKey, ConfigValue.str "0.0.0.0:4317")]
    (ServicePort.mk (PortName "otlp" 4317) 4317) rfl

/-- C5: when the "endpoint" value is a string `e` and `portFromEndpoint`
succeeds on `e` with port `p`, the returned descriptor has exactly
`Port = p` and `Name = PortName(name, p)`. -/
theorem C5_success_descriptor (name : String) (config : List (String × ConfigValue))
    (e : String) (p : Int)
    (he : lookupConfig config endpointKey = some (ConfigValue.str e))
    (hp : portFromEndpoint e = Except.ok p) :
    singlePortFromConfigEndpoint name config = some { name := PortName name p, port := p } := by
  simp [singlePortFromConfigEndpoint, getAddressFromConfig, he, hp]

/-- C5 (witness): for config `{endpoint: "0.0.0.0:4317"}` on exporter
"otlp", the descriptor has port 4317 and name `PortName("otlp", 4317)`. -/
theorem C5_success_descriptor_witness :
    singlePortFromConfigEndpoint "otlp" [(endpointKey, ConfigValue.str "0.0.0.0:4317")] =
      some { name := PortName "otlp" 4317, port := 4317 } :=
  C5_success_descriptor "otlp" [(endpointKey, ConfigValue.str "0.0.0.0:4317")]
    "0.0.0.0:4317" 4317 rfl rfl

/-- C6: `portFromEndpoint` returns the "port should not be empty" error
(and no port) whenever the endpoint contains no colon-digit run, or the
matched digit run parses to zero. -/
theorem C6_empty_port_error (endpoint : String)
    (h : findColonDigits endpoint.data = none ∨
      (∃ ds, findColonDigits endpoint.data = some ds ∧ digitsToNat ds = 0)) :
    portFromEndpoint endpoint = Except.error portEmptyErr := by
  unfold portFromEndpoint
  rcases h with h | ⟨ds, hds, hz⟩
  · rw [h]
  · rw [hds]
    simp [parseInt32, hz, int32Max]

/-- C6 (witness): the claim's three example endpoints: "localhost" and
"localhost:abc" have no colon-digit run, and "localhost:0" matches a run
that parses to zero; all three yield the "port should not be empty"
error. -/
theorem C6_empty_port_error_witness :
    portFromEndpoint "localhost" = Except.error portEmptyErr ∧
    portFromEndpoint "localhost:abc" = Except.error portEmptyErr ∧
    portFromEndpoint "localhost:0" = Except.error portEmptyErr :=
  ⟨C6_empty_port_error "localhost" (Or.inl rfl),
   C6_empty_port_error "localhost:abc" (Or.inl rfl),
   C6_empty_port_error "localhost:0" (Or.inr ⟨['0'], rfl, rfl⟩)⟩

/-- C7: when the matched digit run's base-10 value does not fit in a
signed 32-bit integer, `portFromEndpoint` returns the parse's
out-of-range error (not a port), and `singlePortFromConfigEndpoint` on a
config whose string endpoint triggers it absorbs the error and returns
none instead of propagating it. -/
theorem C7_overflow_absorbed (name : String) (config : List (String × ConfigValue))
    (e : String) (ds : List Char)
    (he : lookupConfig config endpointKey = some (ConfigValue.str e))
    (hds : findColonDigits e.data = some ds)
    (hover : int32Max < digitsToNat ds) :
    portFromEndpoint e = Except.error rangeErr ∧
      singlePortFromConfigEndpoint name config = none := by
  have hpe : portFromEndpoint e = Except.error rangeErr := by
    unfold portFromEndpoint
    rw [hds]
    simp [parseInt32, Nat.not_le.mpr hover]
  refine ⟨hpe, ?_⟩
  simp [singlePortFromConfigEndpoint, getAddressFromConfig, he, hpe]

/-- C7 (witness): endpoint "0.0.0.0:4000000000" (4000000000 > 2^31 - 1)
yields the out-of-range error from `portFromEndpoint`, and none from
`singlePortFromConfigEndpoint`. -/
theorem C7_overflow_absorbed_witness :
    portFromEndpoint "0.0.0.0:4000000000" = Except.error rangeErr ∧
      singlePortFromConfigEndpoint "otlp"
        [(endpointKey, ConfigValue.str "0.0.0.0:4000000000")] = none :=
  C7_overflow_absorbed "otlp" [(endpointKey, ConfigValue.str "0.0.0.0:4000000000")]
    "0.0.0.0:4000000000" ['4', '0', '0', '0', '0', '0', '0', '0', '0', '0']
    rfl rfl (by decide)

/-- C8: on a name whose normalized form has no entry in the respective
table, `BuilderFor` returns none and `For` returns the
"no builders for <name>" error with no parser; `AuthzBuilderFor` and
`AuthzFor` behave identically over `authzRegistry`. -/
theorem C8_unregistered_error {P A : Type} (s : RegistryState P A) (name : String)
    (config : List (String × ConfigValue))
    (h : s.registry (componentType name) = none)
    (ha : s.authzRegistry (componentType name) = none) :
    BuilderFor s name = none ∧
    For s name config = Except.error ("no builders for " ++ name) ∧
    AuthzBuilderFor s name = none ∧
    AuthzFor s name config = Except.error ("no builders for " ++ name) := by
  refine ⟨h, ?_, ha, ?_⟩
  · simp [For, BuilderFor, h]
  · simp [AuthzFor, AuthzBuilderFor, ha]

/-- C8 (witness): on the empty registries, the name "jaeger" has no port
builder and no authz builder, and both `For` and `AuthzFor` report the
"no builders for jaeger" error. -/
theorem C8_unregistered_error_witness :
    BuilderFor (emptyState Nat Nat) "jaeger" = none ∧
    For (emptyState Nat Nat) "jaeger" [] = Except.error ("no builders for " ++ "jaeger") ∧
    AuthzBuilderFor (emptyState Nat Nat) "jaeger" = none ∧
    AuthzFor (emptyState Nat Nat) "jaeger" [] = Except.error ("no builders for " ++ "jaeger") :=
  C8_unregistered_error (emptyState Nat Nat) "jaeger" [] rfl rfl

/-- C9: the two tables are disjoint: `Register` leaves every result of
`AuthzBuilderFor` and `AuthzFor` unchanged, and `AuthzRegister` leaves
every result of `BuilderFor`, `For` and `IsRegistered` unchanged. -/
theorem C9_registry_independence {P A : Type} (s : RegistryState P A) (n m : String)
    (b : Builder P) (ab : Builder A) (config : List (String × ConfigValue)) :
    AuthzBuilderFor (Register s n b) m = AuthzBuilderFor s m ∧
    AuthzFor (Register s n b) m config = AuthzFor s m config ∧
    BuilderFor (AuthzRegister s n ab) m = BuilderFor s m ∧
    For (AuthzRegister s n ab) m config = For s m config ∧
    IsRegistered (AuthzRegister s n ab) m = IsRegistered s m :=
  ⟨rfl, rfl, rfl, rfl, rfl⟩

/-- C10: `IsRegistered` checks the raw name — it holds exactly when the
name is an exact key of the port-builder table — whereas `BuilderFor`
normalizes first: after `Register("otlp", b)` on an empty registry,
`IsRegistered("otlp/2")` is false even though `BuilderFor("otlp/2")`
returns `b`. -/
theorem C10_isRegistered_raw_key {P A : Type} (s : RegistryState P A) (n : String)
    (b : Builder P) :
    IsRegistered s n = (s.registry n).isSome ∧
    IsRegistered (Register (emptyState P A) "otlp" b) "otlp/2" = false ∧
    BuilderFor (Register (emptyState P A) "otlp" b) "otlp/2" = some b :=
  ⟨rfl, rfl, rfl⟩

end Exporter
